import Mathlib

/-!
Verification of the JSON value model, lexer, parser and serializer of
src/json.cpp against its natural-language specification.

The development shallowly embeds the source:
* the tree of parsed values is the inductive `json`;
* the pointer-level variant state of `json::impl` (five raw payload
  pointers with manual `delete` sequencing) is the structure `Impl`,
  whose fields are `Ptr` values distinguishing a null pointer, a live
  payload and a pointer left dangling by `delete`;
* the tokenizer and the recursive-descent parser are fuel-indexed
  functions over the remaining character list (`none` = fuel ran out);
* numbers are modelled as exact rationals; every number a theorem in
  this file touches is a small integer, exactly representable in the
  source's float64.
-/

/-- Parsed document tree: exactly one variant per node. The source's
dictionary is an ordered sequence of key/value pairs (duplicates kept). -/
inductive json where
  | null
  | bool (b : Bool)
  | number (x : ℚ)
  | string (s : String)
  | list (l : List json)
  | dictionary (d : List (String × json))

/-- Variant predicate mirroring `json::is_list` on a well-formed tree node. -/
def json.is_list : json → Bool
  | .list _ => true
  | _ => false

/-- Variant predicate mirroring `json::is_dictionary` on a well-formed tree node. -/
def json.is_dictionary : json → Bool
  | .dictionary _ => true
  | _ => false

/-- Model of a raw C++ payload pointer: null, pointing at a live payload,
or dangling after `delete` (the source's `clear`/setter chains delete a
payload without resetting the pointer, so `p != nullptr` stays true). -/
inductive Ptr (α : Type) where
  | null
  | live (a : α)
  | dangling

/-- The `p != nullptr` test the source's variant predicates perform; a
dangling pointer still passes it. -/
def Ptr.nonNull {α : Type} : Ptr α → Bool
  | .null => false
  | _ => true

/-- Effect of `delete p` on the pointer value itself: the payload dies but
the pointer is not reset, so a live pointer becomes dangling. `delete` on
a null pointer is a no-op. -/
def Ptr.deletePtr {α : Type} : Ptr α → Ptr α
  | .null => .null
  | _ => .dangling

/-- Pointer-level state of `json::impl`: five raw payload pointers, all
null in a default-constructed value (json.cpp:606-611). -/
structure Impl where
  number : Ptr ℚ := .null
  b : Ptr Bool := .null
  s : Ptr String := .null
  l : Ptr (List json) := .null
  dict : Ptr (List (String × json)) := .null

/-- Predicate `json::is_number` (json.cpp:640): `pimpl->number != nullptr`. -/
def Impl.is_number (i : Impl) : Bool := i.number.nonNull

/-- Predicate `json::is_bool` (json.cpp:644). -/
def Impl.is_bool (i : Impl) : Bool := i.b.nonNull

/-- Predicate `json::is_string` (json.cpp:636). -/
def Impl.is_string (i : Impl) : Bool := i.s.nonNull

/-- Predicate `json::is_list` (json.cpp:628). -/
def Impl.is_list (i : Impl) : Bool := i.l.nonNull

/-- Predicate `json::is_dictionary` (json.cpp:632). -/
def Impl.is_dictionary (i : Impl) : Bool := i.dict.nonNull

/-- Predicate `json::is_null` (json.cpp:648): no variant predicate holds. -/
def Impl.is_null (i : Impl) : Bool :=
  !i.is_list && !i.is_dictionary && !i.is_string && !i.is_number && !i.is_bool

/-- Release chain shared verbatim by all six setters
(json.cpp:1125-1135, 1140-1150, 1155-1165, 1170-1180, 1183-1193,
1198-1208): an if/else-if cascade testing is_number, is_list, is_bool,
is_dictionary, is_string in that order and deleting the first payload
whose pointer is non-null, without resetting the pointer. -/
def Impl.setterRelease (i : Impl) : Impl :=
  if i.is_number then { i with number := i.number.deletePtr }
  else if i.is_list then { i with l := i.l.deletePtr }
  else if i.is_bool then { i with b := i.b.deletePtr }
  else if i.is_dictionary then { i with dict := i.dict.deletePtr }
  else if i.is_string then { i with s := i.s.deletePtr }
  else i

/-- Setter `json::set_string` (json.cpp:1125): run the release chain, then
install a fresh string payload. -/
def Impl.set_string (i : Impl) (x : String) : Impl :=
  { i.setterRelease with s := .live x }

/-- Setter `json::set_bool` (json.cpp:1140). -/
def Impl.set_bool (i : Impl) (x : Bool) : Impl :=
  { i.setterRelease with b := .live x }

/-- Setter `json::set_number` (json.cpp:1155). -/
def Impl.set_number (i : Impl) (x : ℚ) : Impl :=
  { i.setterRelease with number := .live x }

/-- Setter `json::set_null` (json.cpp:1170): only the release chain, no
installation. -/
def Impl.set_null (i : Impl) : Impl :=
  i.setterRelease

/-- Setter `json::set_list` (json.cpp:1183): release, then install an
empty list payload. -/
def Impl.set_list (i : Impl) : Impl :=
  { i.setterRelease with l := .live [] }

/-- Setter `json::set_dictionary` (json.cpp:1198), the spec's set_object:
release, then install an empty member sequence. -/
def Impl.set_dictionary (i : Impl) : Impl :=
  { i.setterRelease with dict := .live [] }

/-- Helper `json::impl::clear` (json.cpp:613-624): same delete-first-non-null
cascade as the setters but in the order number, b, s, l, dict; again the
pointer is not reset. -/
def Impl.clear (i : Impl) : Impl :=
  if i.number.nonNull then { i with number := i.number.deletePtr }
  else if i.b.nonNull then { i with b := i.b.deletePtr }
  else if i.s.nonNull then { i with s := i.s.deletePtr }
  else if i.l.nonNull then { i with l := i.l.deletePtr }
  else if i.dict.nonNull then { i with dict := i.dict.deletePtr }
  else i

/-- Token kinds of the tokenizer, named as in the source enum
(json.cpp:1270-1283). -/
inductive TOKEN where
  | GRAFFA_APERTA
  | GRAFFA_CHIUSA
  | DUE_PUNTI
  | STRING
  | NUMBER
  | QUADRA_APERTA
  | QUADRA_CHIUSA
  | VIRGOLA
  | BOOLEAN
  | NULLO
  | FINE_INPUT
deriving DecidableEq

/-- Lexical token (json.cpp:1285-1290): literal text plus kind. Structural
tokens, NullLit and EndOfInput leave the default-constructed empty text. -/
structure Token where
  value : String := ""
  type : TOKEN

/-- Character class skipped by the formatted extraction `is >> curr_char`
at the head of `get_token` (json.cpp:1329): with the default skipws flag
the C locale skips space, tab, newline, vertical tab, form feed and
carriage return. The explicit space/newline re-check at json.cpp:1334 can
never fire, because formatted extraction never yields a whitespace
character, so `getWithoutWhiteSpace` (json.cpp:1314) is unreachable. -/
def isWsChar (c : Char) : Bool :=
  c == ' ' || c == Char.ofNat 9 || c == '\n' ||
  c == Char.ofNat 11 || c == Char.ofNat 12 || c == Char.ofNat 13

/-- Outcome of one `get_token` call: a token plus the remaining input, a
thrown `json_exception` carrying the unrecognized character
(json.cpp:1415), or divergence of the string-scanning loop. -/
inductive LexOut where
  | tok (t : Token) (rest : List Char)
  | err (c : Char)
  | hang

/-- String-scanning loop of `get_token` (json.cpp:1344-1349):
`while (curr_char != '"') { token.value += curr_char; is.get(curr_char); }`.
`curr` is the character most recently read. When the input is exhausted,
`is.get` fails and leaves `curr_char` unchanged, so a non-quote `curr`
makes the loop body run forever; that state is the `hang` outcome
(established against the step-indexed transcription `scanStringFuel`
below by `scanStringLoop_hang_no_fuel_suffices`). -/
def scanStringLoop (curr : Char) (input : List Char) (acc : String) : LexOut :=
  if curr = '"' then .tok { value := acc, type := .STRING } input
  else
    match input with
    | [] => .hang
    | c :: rest => scanStringLoop c rest (acc.push curr)

/-- Step-indexed transcription of the same loop: one fuel unit per
iteration of the while loop; `none` means the loop was still running when
the fuel ran out. On empty input the failed `is.get` leaves `curr`
unchanged while the body has already appended it to the accumulator. -/
def scanStringFuel (fuel : Nat) (input : List Char) (curr : Char) (acc : String) :
    Option (String × List Char) :=
  match fuel with
  | 0 => none
  | f + 1 =>
    if curr = '"' then some (acc, input)
    else
      match input with
      | [] => scanStringFuel f [] curr (acc.push curr)
      | c :: rest => scanStringFuel f rest c (acc.push curr)

/-- Numeric-continuation class of the number-scanning loop
(json.cpp:1360): minus sign, decimal digit or dot, with no grammar
validation. -/
def isNumChar (c : Char) : Bool :=
  c == '-' || ('0' ≤ c && c ≤ '9') || c == '.'

/-- Number-scanning loop of `get_token` (json.cpp:1360-1376): peek the
next character; a NUL byte trips the `!is.peek()` break; a numeric
continuation character is appended and consumed; anything else (or end of
input, where peek yields EOF, which is nonzero and non-numeric) leaves
the character in the stream and ends the token. -/
def scanNumber (input : List Char) (acc : String) : String × List Char :=
  match input with
  | [] => (acc, [])
  | c :: rest =>
    if c = Char.ofNat 0 then (acc, c :: rest)
    else if isNumChar c then scanNumber rest (acc.push c)
    else (acc, c :: rest)

/-- Unformatted `is.get(buffer, n + 1)` used by the boolean branches
(json.cpp:1382, 1393): extracts at most `n` characters, stopping before a
newline delimiter (which stays in the stream) or end of input. -/
def getBuffer (n : Nat) (input : List Char) : List Char × List Char :=
  match n, input with
  | 0, rest => ([], rest)
  | _ + 1, [] => ([], [])
  | m + 1, c :: rest =>
    if c = '\n' then ([], c :: rest)
    else
      let (taken, r) := getBuffer m rest
      (c :: taken, r)

/-- Message of the unrecognized-character throw (json.cpp:1415): the
source indexes the string literal `"carattere non identificato: "` at
offset `curr_char`, yielding the suffix of the literal from that offset
(an out-of-bounds pointer, hence the empty string here, once the offset
passes the literal's length). -/
def lexErrMsg (c : Char) : String :=
  String.mk (("carattere non identificato: ".toList).drop c.toNat)

/-- Tokenizer operation `Tokenizer::get_token` (json.cpp:1324-1418).
Formatted extraction skips whitespace and reads one character; its
failure (end of input) yields FINE_INPUT. The character then selects the
branch, in the source's order: string, braces, number start, `f`, `t`,
`n` (which emits NULLO and skips three characters unchecked via
`is.seekg(3, cur)`), brackets, colon, comma, and the unrecognized-character
throw. -/
def get_token (input : List Char) : LexOut :=
  match input.dropWhile isWsChar with
  | [] => .tok { value := "", type := .FINE_INPUT } []
  | c :: rest =>
    if c = '"' then
      match rest with
      | [] => scanStringLoop '"' [] ""
      | c2 :: rest2 => scanStringLoop c2 rest2 ""
    else if c = '{' then .tok { value := "", type := .GRAFFA_APERTA } rest
    else if c = '}' then .tok { value := "", type := .GRAFFA_CHIUSA } rest
    else if c = '-' || ('0' ≤ c && c ≤ '9') then
      let (v, r) := scanNumber rest (String.mk [c])
      .tok { value := v, type := .NUMBER } r
    else if c = 'f' then
      let (taken, r) := getBuffer 4 rest
      if String.mk taken ≠ "alse" then .err 'f'
      else .tok { value := "False", type := .BOOLEAN } r
    else if c = 't' then
      let (taken, r) := getBuffer 3 rest
      if String.mk taken ≠ "rue" then .err 't'
      else .tok { value := "True", type := .BOOLEAN } r
    else if c = 'n' then .tok { value := "", type := .NULLO } (rest.drop 3)
    else if c = '[' then .tok { value := "", type := .QUADRA_APERTA } rest
    else if c = ']' then .tok { value := "", type := .QUADRA_CHIUSA } rest
    else if c = ':' then .tok { value := "", type := .DUE_PUNTI } rest
    else if c = ',' then .tok { value := "", type := .VIRGOLA } rest
    else .err c

/-- Errors surfaced by lexing and parsing: a thrown `json_exception`
carrying its message, or the `std::invalid_argument` that `std::stod`
throws when the token text has no numeric prefix (json.cpp:1430) — an
exception type outside the program's own `json_exception` taxonomy. -/
inductive Err where
  | json_exc (msg : String)
  | invalid_argument
deriving DecidableEq

/-- Test whether an error belongs to the program's `json_exception`
taxonomy; the `std::invalid_argument` escaping `std::stod` does not. -/
def Err.isJsonException : Err → Bool
  | .json_exc _ => true
  | .invalid_argument => false

/-- Value of a decimal digit run. -/
def digitsVal (ds : List Char) : Nat :=
  ds.foldl (fun a c => a * 10 + (c.toNat - '0'.toNat)) 0

/-- Decimal-digit test used while modelling `std::stod`. -/
def isDigitCh (c : Char) : Bool := '0' ≤ c && c ≤ '9'

/-- Model of `std::stod` on the texts the number lexer can produce
(drawn from `-`, digits and `.`; json.cpp:1354-1376 admits nothing
else): an optional leading minus sign, then the longest
`digits [. digits]` prefix; at least one digit must occur in that prefix
or the conversion fails with `std::invalid_argument` (`none` here). The
value `D.F` is returned exactly as the rational
`(D * 10^k + F) / 10^k` (`k` the fraction length); float64 rounding is
not modelled, and every theorem below uses only values float64
represents exactly. -/
def stod (s : String) : Option ℚ :=
  let cs := s.toList
  let (neg, cs1) : Bool × List Char :=
    match cs with
    | '-' :: t => (true, t)
    | _ => (false, cs)
  let ds := cs1.takeWhile isDigitCh
  let cs2 := cs1.dropWhile isDigitCh
  let fs : List Char :=
    match cs2 with
    | '.' :: t => t.takeWhile isDigitCh
    | _ => []
  if ds.isEmpty && fs.isEmpty then none
  else
    let mag : ℚ :=
      mkRat (Int.ofNat (digitsVal ds * 10 ^ fs.length + digitsVal fs)) (10 ^ fs.length)
    some (if neg then -mag else mag)

/-- Leaf builder `get_json_string` (json.cpp:1421): the token text
verbatim becomes the string payload (no unescaping). -/
def get_json_string (t : Token) : Except Err json :=
  .ok (.string t.value)

/-- Leaf builder `get_json_number` (json.cpp:1427): `std::stod` on the
token text; its failure escapes as `std::invalid_argument`. -/
def get_json_number (t : Token) : Except Err json :=
  match stod t.value with
  | some x => .ok (.number x)
  | none => .error .invalid_argument

/-- Leaf builder `get_json_boolean` (json.cpp:1434): compares the token
text with the pre-classified `"True"`. -/
def get_json_boolean (t : Token) : Except Err json :=
  .ok (.bool (t.value == "True"))

/-- Leaf builder `get_json_null` (json.cpp:1444). -/
def get_json_null (_t : Token) : Except Err json :=
  .ok .null

/-- Parse outcome: a value with the remaining input, a thrown exception,
or divergence inherited from the lexer. Parser functions return
`Option POut`, with `none` meaning the fuel bound was hit. -/
inductive POut where
  | ok (j : json) (rest : List Char)
  | err (e : Err)
  | hang

mutual

/-- Entry of `get_json_dictionary` (json.cpp:1452-1455): start from an
empty member sequence and the initial separator state
`sinistra = "", b = false, primo = true, virgola = false`; the loop reads
its first token itself. -/
def get_json_dictionary (fuel : Nat) (input : List Char) : Option POut :=
  match fuel with
  | 0 => none
  | f + 1 => dictLoop f input [] "" false true false

/-- Loop of `get_json_dictionary` (json.cpp:1460-1645). State: `acc` the
member sequence built so far (`insert` is `push_front`, json.cpp:1233,
so a new member is consed on), `sinistra` the captured key text, `b`
whether the colon was seen, `primo`/`virgola` the first-member/
comma-just-seen flags. Each of the six value-token branches repeats the
same guard cascade of the source verbatim; a value token with the key
slot empty is captured as the bare key text, and `GRAFFA_APERTA` /
`QUADRA_APERTA` in key position capture the token's (empty) text without
recursing. -/
def dictLoop (fuel : Nat) (input : List Char) (acc : List (String × json))
    (sinistra : String) (b primo virgola : Bool) : Option POut :=
  match fuel with
  | 0 => none
  | f + 1 =>
    match get_token input with
    | .hang => some .hang
    | .err c => some (.err (.json_exc (lexErrMsg c)))
    | .tok token rest =>
      match token.type with
      | .GRAFFA_CHIUSA => some (.ok (.dictionary acc) rest)
      | .STRING =>
        if sinistra.isEmpty && !b then
          dictLoop f rest acc token.value b primo virgola
        else if !sinistra.isEmpty && b then
          if primo && !virgola then
            match get_json_string token with
            | .error e => some (.err e)
            | .ok jv => dictLoop f rest ((sinistra, jv) :: acc) sinistra false false virgola
          else if !primo && virgola then
            match get_json_string token with
            | .error e => some (.err e)
            | .ok jv => dictLoop f rest ((sinistra, jv) :: acc) sinistra false primo false
          else some (.err (.json_exc "problema virgola"))
        else some (.err (.json_exc "due punti mancanti"))
      | .NUMBER =>
        if sinistra.isEmpty && !b then
          dictLoop f rest acc token.value b primo virgola
        else if !sinistra.isEmpty && b then
          if primo && !virgola then
            match get_json_number token with
            | .error e => some (.err e)
            | .ok jv => dictLoop f rest ((sinistra, jv) :: acc) sinistra false false virgola
          else if !primo && virgola then
            match get_json_number token with
            | .error e => some (.err e)
            | .ok jv => dictLoop f rest ((sinistra, jv) :: acc) sinistra false primo false
          else some (.err (.json_exc "problema virgola"))
        else some (.err (.json_exc "due punti mancanti"))
      | .BOOLEAN =>
        if sinistra.isEmpty && !b then
          dictLoop f rest acc token.value b primo virgola
        else if !sinistra.isEmpty && b then
          if primo && !virgola then
            match get_json_boolean token with
            | .error e => some (.err e)
            | .ok jv => dictLoop f rest ((sinistra, jv) :: acc) sinistra false false virgola
          else if !primo && virgola then
            match get_json_boolean token with
            | .error e => some (.err e)
            | .ok jv => dictLoop f rest ((sinistra, jv) :: acc) sinistra false primo false
          else some (.err (.json_exc "problema virgola"))
        else some (.err (.json_exc "due punti mancanti"))
      | .NULLO =>
        if sinistra.isEmpty && !b then
          dictLoop f rest acc token.value b primo virgola
        else if !sinistra.isEmpty && b then
          if primo && !virgola then
            match get_json_null token with
            | .error e => some (.err e)
            | .ok jv => dictLoop f rest ((sinistra, jv) :: acc) sinistra false false virgola
          else if !primo && virgola then
            match get_json_null token with
            | .error e => some (.err e)
            | .ok jv => dictLoop f rest ((sinistra, jv) :: acc) sinistra false primo false
          else some (.err (.json_exc "problema virgola"))
        else some (.err (.json_exc "due punti mancanti"))
      | .GRAFFA_APERTA =>
        if sinistra.isEmpty && !b then
          dictLoop f rest acc token.value b primo virgola
        else if !sinistra.isEmpty && b then
          if primo && !virgola then
            match get_json_dictionary f rest with
            | none => none
            | some .hang => some .hang
            | some (.err e) => some (.err e)
            | some (.ok jv rest2) => dictLoop f rest2 ((sinistra, jv) :: acc) sinistra false false virgola
          else if !primo && virgola then
            match get_json_dictionary f rest with
            | none => none
            | some .hang => some .hang
            | some (.err e) => some (.err e)
            | some (.ok jv rest2) => dictLoop f rest2 ((sinistra, jv) :: acc) sinistra false primo false
          else some (.err (.json_exc "problema virgola"))
        else some (.err (.json_exc "due punti mancanti"))
      | .QUADRA_APERTA =>
        if sinistra.isEmpty && !b then
          dictLoop f rest acc token.value b primo virgola
        else if !sinistra.isEmpty && b then
          if primo && !virgola then
            match get_json_list f rest with
            | none => none
            | some .hang => some .hang
            | some (.err e) => some (.err e)
            | some (.ok jv rest2) => dictLoop f rest2 ((sinistra, jv) :: acc) sinistra false false virgola
          else if !primo && virgola then
            match get_json_list f rest with
            | none => none
            | some .hang => some .hang
            | some (.err e) => some (.err e)
            | some (.ok jv rest2) => dictLoop f rest2 ((sinistra, jv) :: acc) sinistra false primo false
          else some (.err (.json_exc "problema virgola"))
        else some (.err (.json_exc "due punti mancanti"))
      | .DUE_PUNTI =>
        if !sinistra.isEmpty && !b then
          dictLoop f rest acc sinistra true primo virgola
        else some (.err (.json_exc "formato json non valido"))
      | .VIRGOLA =>
        if !virgola then
          dictLoop f rest acc "" false primo true
        else some (.err (.json_exc "hai ricevuto una virgola non necessaria"))
      | _ => some (.err (.json_exc "formato json non valido"))

/-- Entry of `get_json_list` (json.cpp:1649-1652): empty element list,
`primo = true, virgola = false`. -/
def get_json_list (fuel : Nat) (input : List Char) : Option POut :=
  match fuel with
  | 0 => none
  | f + 1 => listLoop f input [] true false

/-- Loop of `get_json_list` (json.cpp:1655-1753): elements are appended
with `push_back`, so the list keeps left-to-right encounter order; the
comma state machine mirrors the dictionary's, without keys or colons. The
final catch-all (covering `GRAFFA_CHIUSA`, `DUE_PUNTI` and `FINE_INPUT`,
the latter making an unterminated list a parse error) throws
`"formato json non valido"`. -/
def listLoop (fuel : Nat) (input : List Char) (acc : List json)
    (primo virgola : Bool) : Option POut :=
  match fuel with
  | 0 => none
  | f + 1 =>
    match get_token input with
    | .hang => some .hang
    | .err c => some (.err (.json_exc (lexErrMsg c)))
    | .tok token rest =>
      match token.type with
      | .QUADRA_CHIUSA => some (.ok (.list acc) rest)
      | .STRING =>
        if primo && !virgola then
          match get_json_string token with
          | .error e => some (.err e)
          | .ok jv => listLoop f rest (acc ++ [jv]) false virgola
        else if !primo && virgola then
          match get_json_string token with
          | .error e => some (.err e)
          | .ok jv => listLoop f rest (acc ++ [jv]) primo false
        else some (.err (.json_exc "problema virgola"))
      | .NUMBER =>
        if primo && !virgola then
          match get_json_number token with
          | .error e => some (.err e)
          | .ok jv => listLoop f rest (acc ++ [jv]) false virgola
        else if !primo && virgola then
          match get_json_number token with
          | .error e => some (.err e)
          | .ok jv => listLoop f rest (acc ++ [jv]) primo false
        else some (.err (.json_exc "problema virgola"))
      | .BOOLEAN =>
        if primo && !virgola then
          match get_json_boolean token with
          | .error e => some (.err e)
          | .ok jv => listLoop f rest (acc ++ [jv]) false virgola
        else if !primo && virgola then
          match get_json_boolean token with
          | .error e => some (.err e)
          | .ok jv => listLoop f rest (acc ++ [jv]) primo false
        else some (.err (.json_exc "problema virgola"))
      | .NULLO =>
        if primo && !virgola then
          match get_json_null token with
          | .error e => some (.err e)
          | .ok jv => listLoop f rest (acc ++ [jv]) false virgola
        else if !primo && virgola then
          match get_json_null token with
          | .error e => some (.err e)
          | .ok jv => listLoop f rest (acc ++ [jv]) primo false
        else some (.err (.json_exc "problema virgola"))
      | .GRAFFA_APERTA =>
        if primo && !virgola then
          match get_json_dictionary f rest with
          | none => none
          | some .hang => some .hang
          | some (.err e) => some (.err e)
          | some (.ok jv rest2) => listLoop f rest2 (acc ++ [jv]) false virgola
        else if !primo && virgola then
          match get_json_dictionary f rest with
          | none => none
          | some .hang => some .hang
          | some (.err e) => some (.err e)
          | some (.ok jv rest2) => listLoop f rest2 (acc ++ [jv]) primo false
        else some (.err (.json_exc "problema virgola"))
      | .QUADRA_APERTA =>
        if primo && !virgola then
          match get_json_list f rest with
          | none => none
          | some .hang => some .hang
          | some (.err e) => some (.err e)
          | some (.ok jv rest2) => listLoop f rest2 (acc ++ [jv]) false virgola
        else if !primo && virgola then
          match get_json_list f rest with
          | none => none
          | some .hang => some .hang
          | some (.err e) => some (.err e)
          | some (.ok jv rest2) => listLoop f rest2 (acc ++ [jv]) primo false
        else some (.err (.json_exc "problema virgola"))
      | .VIRGOLA =>
        if !virgola then
          listLoop f rest acc primo true
        else some (.err (.json_exc "hai ricevuto una virgola non necessaria"))
      | _ => some (.err (.json_exc "formato json non valido"))

end

/-- Stream extraction `operator>>(std::istream&, json&)`
(json.cpp:1758-1795): read tokens in a loop, dispatching each to the
matching builder and overwriting `rhs` with the result, until
FINE_INPUT breaks the loop; an unexpected token throws (with the
source's misspelled message). `rhs` is the target value's prior state,
kept when the input holds no value at all. -/
def readJson (fuel : Nat) (rhs : json) (input : List Char) : Option POut :=
  match fuel with
  | 0 => none
  | f + 1 =>
    match get_token input with
    | .hang => some .hang
    | .err c => some (.err (.json_exc (lexErrMsg c)))
    | .tok token rest =>
      match token.type with
      | .GRAFFA_APERTA =>
        match get_json_dictionary f rest with
        | none => none
        | some .hang => some .hang
        | some (.err e) => some (.err e)
        | some (.ok j rest2) => readJson f j rest2
      | .STRING =>
        match get_json_string token with
        | .error e => some (.err e)
        | .ok j => readJson f j rest
      | .NUMBER =>
        match get_json_number token with
        | .error e => some (.err e)
        | .ok j => readJson f j rest
      | .QUADRA_APERTA =>
        match get_json_list f rest with
        | none => none
        | some .hang => some .hang
        | some (.err e) => some (.err e)
        | some (.ok j rest2) => readJson f j rest2
      | .BOOLEAN =>
        match get_json_boolean token with
        | .error e => some (.err e)
        | .ok j => readJson f j rest
      | .NULLO =>
        match get_json_null token with
        | .error e => some (.err e)
        | .ok j => readJson f j rest
      | .FINE_INPUT => some (.ok rhs rest)
      | _ => some (.err (.json_exc "formato json non valiod"))

/-- First-match lookup over the member sequence, mirroring the iteration
in both overloads of `json::operator[]` (json.cpp:942, 957): walk front
to back and return the first member whose key equals the argument. -/
def dictFind (d : List (String × json)) (kiave : String) : Option json :=
  match d with
  | [] => none
  | (k, v) :: rest => if k = kiave then some v else dictFind rest kiave

/-- Read-only keyed lookup `json::operator[] const` (json.cpp:935-948):
TypeMismatch throw when the value is not a dictionary, first match when
the key occurs, NotFound throw otherwise. -/
def json.index_c (j : json) (kiave : String) : Except Err json :=
  match j with
  | .dictionary d =>
    match dictFind d kiave with
    | some v => .ok v
    | none => .error (.json_exc "non posso effettuare l\x27inserimento")
  | _ => .error (.json_exc "this is not a dictionary")

/-- Mutable keyed lookup `json::operator[]` (json.cpp:950-964): returns
the referenced slot's value paired with the dictionary after the call.
When the key is absent a fresh default-constructed (null) member is
appended with `push_back` and that new back slot is returned. -/
def json.index_m (j : json) (kiave : String) : Except Err (json × json) :=
  match j with
  | .dictionary d =>
    match dictFind d kiave with
    | some v => .ok (v, .dictionary d)
    | none => .ok (.null, .dictionary (d ++ [(kiave, .null)]))
  | _ => .error (.json_exc "this is not a dictionary")

/-- Member insertion `json::insert` (json.cpp:1231-1238): TypeMismatch
throw off a dictionary; otherwise `push_front` on the member sequence,
so the new member heads the iteration order. -/
def json.insert (j : json) (x : String × json) : Except Err json :=
  match j with
  | .dictionary d => .ok (.dictionary (x :: d))
  | _ => .error (.json_exc "this is not a dictionary")

/-- Non-const `json::begin_dictionary` (json.cpp:893-901): the guard
tests `is_list`, not `is_dictionary`; on the success path the source
would build an iterator from `pimpl->dict`, a null pointer on a list
value, modelled by the `Option` (`none` = iterator built from a null
member sequence). -/
def json.begin_dictionary_m (j : json) : Except Err (Option (List (String × json))) :=
  if j.is_list = false then .error (.json_exc "this is not a list")
  else .ok (match j with | .dictionary d => some d | _ => none)

/-- Non-const `json::end_dictionary` (json.cpp:903-911): same `is_list`
guard; the success value stands for the end iterator. -/
def json.end_dictionary_m (j : json) : Except Err (Option Unit) :=
  if j.is_list = false then .error (.json_exc "this is not a list")
  else .ok (match j with | .dictionary _ => some () | _ => none)

/-- Const `json::begin_dictionary` (json.cpp:913-921): guard on
`is_dictionary`, iterator over the member sequence from the front. -/
def json.begin_dictionary_c (j : json) : Except Err (List (String × json)) :=
  if j.is_dictionary = false then .error (.json_exc "this is not a dictionary")
  else .ok (match j with | .dictionary d => d | _ => [])

/-- Const `json::end_dictionary` (json.cpp:923-931): guard on
`is_dictionary`; the unit value stands for the end iterator. -/
def json.end_dictionary_c (j : json) : Except Err Unit :=
  if j.is_dictionary = false then .error (.json_exc "this is not a dictionary")
  else .ok ()

/-- Stream rendering of a Number payload: the source prints the double
with the default ostream format (json.cpp:1242). Integral values print
with no decimal point, as that format does; non-integral values are
printed as raw rationals, a stand-in only — the default format's
six-significant-digit rounding and scientific notation are floating-point
behavior outside this model, and no theorem in this file evaluates the
serializer on a Number. -/
def renderNumber (x : ℚ) : String :=
  if x.den = 1 then toString x.num else toString x

mutual

/-- Serializer `operator<<(std::ostream&, json const&)`
(json.cpp:1240-1264), testing the variant in the source's order: Number
in default double format; List as `[ e, e, ] ` with a separator trailing
every element; Object likewise as `\x7b k:v, \x7d ` in stored
(front-inserted) member order; String as the raw text with no quotes and
no escaping; Bool as `true`/`false`; otherwise `null`. -/
def renderJson : json → String
  | .number x => renderNumber x
  | .list l => "[ " ++ renderList l ++ "] "
  | .dictionary d => "\x7b " ++ renderDict d ++ "\x7d "
  | .string s => s
  | .bool b => if b then "true" else "false"
  | .null => "null"

/-- Element loop of the list rendering (json.cpp:1245-1247). -/
def renderList : List json → String
  | [] => ""
  | x :: rest => renderJson x ++ ", " ++ renderList rest

/-- Member loop of the dictionary rendering (json.cpp:1251-1253). -/
def renderDict : List (String × json) → String
  | [] => ""
  | (k, v) :: rest => k ++ ":" ++ renderJson v ++ ", " ++ renderDict rest

end

/-- On exhausted input the string-scanning loop makes no progress: the
failed `is.get` leaves `curr` unchanged, so when `curr` is not the
closing quote no amount of fuel reaches a result. -/
theorem scanStringFuel_nil_none (curr : Char) (h : curr ≠ '"') :
    ∀ (fuel : Nat) (acc : String), scanStringFuel fuel [] curr acc = none := by
  intro fuel
  induction fuel with
  | zero => intro acc; rfl
  | succ f ih =>
    intro acc
    simp only [scanStringFuel, if_neg h]
    exact ih _

/-- Soundness of the `hang` marker: whenever the total transcription of
the string-scanning loop reports `hang`, the step-indexed transcription
confirms that the loop is still running after any number of steps. -/
theorem scanStringLoop_hang_no_fuel_suffices :
    ∀ (input : List Char) (curr : Char) (acc : String),
      scanStringLoop curr input acc = .hang →
      ∀ fuel, scanStringFuel fuel input curr acc = none := by
  intro input
  induction input with
  | nil =>
    intro curr acc h fuel
    have hc : curr ≠ '"' := by
      intro e
      subst e
      simp [scanStringLoop] at h
    exact scanStringFuel_nil_none curr hc fuel acc
  | cons c rest ih =>
    intro curr acc h fuel
    have hc : curr ≠ '"' := by
      intro e
      subst e
      simp [scanStringLoop] at h
    have h2 : scanStringLoop c rest (acc.push curr) = .hang := by
      rw [scanStringLoop, if_neg hc] at h
      exact h
    cases fuel with
    | zero => rfl
    | succ f =>
      simp only [scanStringFuel, if_neg hc]
      exact ih c (acc.push curr) h2 f

/-- C1: the claim says every setter leaves at most one variant populated
and `set_null` makes `is_null` true. The code deletes the old payload
but never resets the pointer (json.cpp:1125-1211), so after
`set_string` followed by `set_null` the string pointer dangles non-null:
`is_null` is false, and after `set_string` followed by `set_number` the
predicates report two populated variants at once (and the destructor at
json.cpp:968-981 would delete the dangling pointer again). This theorem
evaluates the code at those failing inputs. -/
theorem C1_setter_stale_pointer_evaluation :
    ((((({} : Impl).set_string "x").set_null).is_null = false) ∧
     (((({} : Impl).set_string "x").set_null).is_string = true)) ∧
    (((((({} : Impl).set_string "x").set_number 1).is_string = true) ∧
      (((({} : Impl).set_string "x").set_number 1).is_number = true))) :=
  ⟨⟨rfl, rfl⟩, ⟨rfl, rfl⟩⟩

/-- C2: the parser's member insertion is `push_front`, so iteration
order is the reverse of parse order; in particular the document
holding a:1 then b:2 parses to the member sequence (b,2), (a,1). -/
theorem C2_insert_front_reverses_parse_order :
    (∀ (d : List (String × json)) (k : String) (v : json),
      (json.dictionary d).insert (k, v) = .ok (.dictionary ((k, v) :: d))) ∧
    readJson 50 .null (String.toList "\x7b\"a\":1,\"b\":2\x7d") =
      some (.ok (.dictionary [("b", json.number 2), ("a", json.number 1)]) []) :=
  ⟨fun _ _ _ => rfl, by rfl⟩

/-- C4: keyed lookup: the mutable overload returns the first matching
member's value leaving the dictionary unchanged, or appends a fresh null
member and returns that slot when the key is absent; the const overload
returns the first match or fails with NotFound; both throw TypeMismatch
off a dictionary. -/
theorem C4_keyed_lookup (d : List (String × json)) (k : String) :
    (∀ v, dictFind d k = some v →
      (json.dictionary d).index_m k = .ok (v, .dictionary d) ∧
      (json.dictionary d).index_c k = .ok v) ∧
    (dictFind d k = none →
      (json.dictionary d).index_m k = .ok (.null, .dictionary (d ++ [(k, .null)])) ∧
      (json.dictionary d).index_c k =
        .error (.json_exc "non posso effettuare l\x27inserimento")) ∧
    (∀ j : json, j.is_dictionary = false →
      j.index_m k = .error (.json_exc "this is not a dictionary") ∧
      j.index_c k = .error (.json_exc "this is not a dictionary")) := by
  refine ⟨?_, ?_, ?_⟩
  · intro v h
    exact ⟨by simp [json.index_m, h], by simp [json.index_c, h]⟩
  · intro h
    exact ⟨by simp [json.index_m, h], by simp [json.index_c, h]⟩
  · intro j h
    cases j <;> simp_all [json.is_dictionary, json.index_m, json.index_c]

/-- Witness for C4 at concrete inputs: present key, absent key, and a
non-dictionary value. -/
theorem C4_keyed_lookup_witness :
    ((json.dictionary [("a", json.number 1)]).index_m "a" =
        .ok (json.number 1, .dictionary [("a", json.number 1)]) ∧
     (json.dictionary [("a", json.number 1)]).index_c "a" = .ok (json.number 1)) ∧
    ((json.dictionary []).index_m "b" = .ok (.null, .dictionary [("b", json.null)]) ∧
     (json.dictionary []).index_c "b" =
        .error (.json_exc "non posso effettuare l\x27inserimento")) ∧
    ((json.number 3).index_m "k" = .error (.json_exc "this is not a dictionary") ∧
     (json.number 3).index_c "k" = .error (.json_exc "this is not a dictionary")) :=
  ⟨(C4_keyed_lookup [("a", json.number 1)] "a").1 (json.number 1) rfl,
   (C4_keyed_lookup [] "b").2.1 rfl,
   (C4_keyed_lookup [] "k").2.2 (json.number 3) rfl⟩

/-- C9: the non-const dictionary iterator accessors guard on `is_list`
instead of `is_dictionary`, so on every dictionary value they throw; the
const overloads guard on `is_dictionary` and succeed. -/
theorem C9_nonconst_dictionary_iterators_throw (d : List (String × json)) :
    (json.dictionary d).begin_dictionary_m = .error (.json_exc "this is not a list") ∧
    (json.dictionary d).end_dictionary_m = .error (.json_exc "this is not a list") ∧
    (json.dictionary d).begin_dictionary_c = .ok d ∧
    (json.dictionary d).end_dictionary_c = .ok () :=
  ⟨rfl, rfl, rfl, rfl⟩

/-- C3 counterexample: the claim includes String leaves in the
serialize-then-parse round trip, but the serializer renders a string
with no quotes and no escaping (json.cpp:1256), so the rendered text of
the String value `x` re-enters the lexer as the bare character `x` and
is thrown as an unrecognized-character `json_exception` instead of
reproducing the String value. -/
theorem C3_string_round_trip_fails :
    renderJson (json.string "x") = "x" ∧
    readJson 10 .null (String.toList (renderJson (json.string "x"))) =
      some (.err (.json_exc (lexErrMsg 'x'))) :=
  ⟨rfl, rfl⟩

/-- C3 amended: the round trip holds for the Bool and Null leaves, whose
renderings `true`, `false` and `null` re-lex to the same literal. -/
theorem C3_bool_null_round_trip (v : json)
    (h : v = .null ∨ v = .bool true ∨ v = .bool false) :
    readJson 10 .null (String.toList (renderJson v)) = some (.ok v []) := by
  rcases h with rfl | rfl | rfl <;> rfl

/-- Witness for C3 amended at the Bool `true` leaf. -/
theorem C3_bool_null_round_trip_witness :
    (json.bool true = .null ∨ json.bool true = .bool true ∨ json.bool true = .bool false) ∧
    readJson 10 .null (String.toList (renderJson (.bool true))) =
      some (.ok (.bool true) []) :=
  ⟨Or.inr (Or.inl rfl), C3_bool_null_round_trip (.bool true) (Or.inr (Or.inl rfl))⟩

/-- C5 counterexample: the claim says a tab between two tokens makes
`get_token` fail with a LexError carrying the tab, but the formatted
extraction `is >> curr_char` skips every standard whitespace character,
tab and carriage return included; a tab before `]` is skipped and the
bracket token is returned, and the whole document `[` tab `]` parses to
the empty list. -/
theorem C5_tab_between_tokens_is_skipped :
    get_token (Char.ofNat 9 :: [']']) =
      .tok { value := "", type := .QUADRA_CHIUSA } [] ∧
    readJson 10 .null ('[' :: Char.ofNat 9 :: [']']) = some (.ok (.list []) []) :=
  ⟨rfl, rfl⟩

/-- C5 amended: every standard whitespace character — space, tab,
newline, vertical tab, form feed, carriage return — standing before a
token is skipped by the formatted extraction, leaving the token
unchanged. -/
theorem C5_leading_whitespace_skipped (c : Char) (input : List Char)
    (h : isWsChar c = true) :
    get_token (c :: input) = get_token input := by
  unfold get_token
  rw [List.dropWhile_cons, if_pos h]

/-- Witness for C5 amended at a tab before `]`. -/
theorem C5_leading_whitespace_skipped_witness :
    isWsChar (Char.ofNat 9) = true ∧
    get_token (Char.ofNat 9 :: [']']) = get_token [']'] :=
  ⟨rfl, C5_leading_whitespace_skipped (Char.ofNat 9) [']'] rfl⟩

/-- C6 counterexample: the claim says a NumberLit whose text does not
convert raises a recoverable ParseError of the program's single error
taxonomy, but `std::stod` on the token `-` throws
`std::invalid_argument`, which is not a `json_exception` of that
taxonomy: it escapes the parser uncaught. -/
theorem C6_stod_failure_escapes_taxonomy :
    readJson 10 .null (String.toList "-") = some (.err .invalid_argument) ∧
    Err.isJsonException .invalid_argument = false :=
  ⟨rfl, rfl⟩

/-- C6 amended: a NumberLit token whose accumulated text fails the
numeric conversion makes the number builder throw
`std::invalid_argument`, an exception outside the parser's
`json_exception` taxonomy (a fatal abort relative to it), not a
recoverable ParseError. -/
theorem C6_number_conversion_failure (s : String) (h : stod s = none) :
    get_json_number { value := s, type := .NUMBER } = .error .invalid_argument ∧
    Err.isJsonException .invalid_argument = false :=
  ⟨by simp [get_json_number, h], rfl⟩

/-- Witness for C6 amended at the token text of the lone minus sign. -/
theorem C6_number_conversion_failure_witness :
    stod "-" = none ∧
    (get_json_number { value := "-", type := .NUMBER } = .error .invalid_argument ∧
     Err.isJsonException .invalid_argument = false) :=
  ⟨rfl, C6_number_conversion_failure "-" rfl⟩

/-- C7: the three malformed documents — missing colon, doubled comma,
missing comma — each throw a `json_exception` ParseError, so no value is
produced. -/
theorem C7_grammar_violations_raise_parse_errors :
    readJson 20 .null (String.toList "\x7b\"a\" 1\x7d") =
      some (.err (.json_exc "due punti mancanti")) ∧
    readJson 20 .null (String.toList "[1,,2]") =
      some (.err (.json_exc "hai ricevuto una virgola non necessaria")) ∧
    readJson 20 .null (String.toList "[1 2]") =
      some (.err (.json_exc "problema virgola")) :=
  ⟨rfl, rfl, rfl⟩

/-- C8: after reading `n` the lexer emits a NULLO token and skips the
next three characters without inspecting them, whatever they are; in
particular the malformed literal `nxyz` is silently accepted as a Null
value. -/
theorem C8_null_literal_skips_three_unchecked :
    (∀ (c1 c2 c3 : Char) (rest : List Char),
      get_token ('n' :: c1 :: c2 :: c3 :: rest) =
        .tok { value := "", type := .NULLO } rest) ∧
    readJson 10 .null (String.toList "nxyz") = some (.ok .null []) :=
  ⟨fun _ _ _ _ => rfl, rfl⟩

/-- C10: an unterminated string literal diverges the lexer. On the
document consisting of an opening quote and the letter `a`, the total
transcription reports the `hang` state, and the step-indexed
transcription of the very loop confirms that from that state — input
exhausted, current character not a quote — no number of loop iterations
produces a token or an error. -/
theorem C10_unterminated_string_never_terminates :
    get_token (String.toList "\"a") = LexOut.hang ∧
    (∀ (fuel : Nat) (curr : Char) (acc : String), curr ≠ '"' →
      scanStringFuel fuel [] curr acc = none) :=
  ⟨rfl, fun fuel curr acc h => scanStringFuel_nil_none curr h fuel acc⟩

/-- Witness for C10 with concrete fuel and scan state. -/
theorem C10_unterminated_string_witness :
    get_token (String.toList "\"a") = LexOut.hang ∧
    scanStringFuel 7 [] 'a' "" = none :=
  ⟨C10_unterminated_string_never_terminates.1,
   C10_unterminated_string_never_terminates.2 7 'a' "" (by decide)⟩
